import Mathlib

/-!
# Verification of the zero-trust keystroke-authentication core

A shallow embedding, in Lean 4, of the behavioral-biometric authentication
pipeline of this repository: the keystroke feature extractor
(`keystroke.py`), the baseline profile manager (`trust_engine.py`), the
multi-factor risk engine (`risk_engine.py`), and the session-monitor state
machine (`main.py`).

Modelling conventions:
* Python floats are idealised as real numbers (`ℝ`).  `round(x, 4)` is
  modelled by `round4`, round-half-to-even at four decimal places, the
  rounding mode Python's built-in `round` uses.
* Python dicts that preserve insertion order are modelled as association
  lists.
* Fallible operations (`raise ValueError`, `raise FileNotFoundError`)
  are modelled with `Except String`.
* The baseline JSON file on disk is modelled as an explicit
  `Option BaselineProfile` store value; `json.dump`/`json.load` of the
  profile record is modelled as exact (Python's float repr round-trips).
-/

namespace ZeroTrust

/-! ## Python `round(_, 4)` : round half to even at 4 decimal places -/

/-- The integer nearest to `x`, ties going to the even integer
(the rounding of Python's built-in `round`). -/
noncomputable def pyRoundInt (x : ℝ) : ℤ :=
  if Int.fract x < 1/2 then ⌊x⌋
  else if 1/2 < Int.fract x then ⌊x⌋ + 1
  else if 2 ∣ ⌊x⌋ then ⌊x⌋ else ⌊x⌋ + 1

/-- Python's `round(x, 4)`. -/
noncomputable def round4 (x : ℝ) : ℝ := (pyRoundInt (x * 10000) : ℝ) / 10000

theorem pyRoundInt_eq_floor_of (n : ℤ) (x : ℝ) (h1 : (n : ℝ) ≤ x)
    (h2 : x < n + 1/2) : pyRoundInt x = n := by
  have hfl : ⌊x⌋ = n := by
    rw [Int.floor_eq_iff]
    refine ⟨h1, ?_⟩
    have : ((n : ℝ) + 1/2) ≤ n + 1 := by norm_num
    linarith
  have hfr : Int.fract x < 1/2 := by
    rw [← Int.self_sub_floor, hfl]
    linarith
  unfold pyRoundInt
  rw [if_pos hfr, hfl]

theorem pyRoundInt_eq_ceil_of (n : ℤ) (x : ℝ) (h1 : (n : ℝ) + 1/2 < x)
    (h2 : x < n + 1) : pyRoundInt x = n + 1 := by
  have hfl : ⌊x⌋ = n := by
    rw [Int.floor_eq_iff]
    constructor
    · have : (n : ℝ) ≤ n + 1/2 := by norm_num
      linarith
    · exact_mod_cast h2
  have hfr : 1/2 < Int.fract x := by
    rw [← Int.self_sub_floor, hfl]
    linarith
  unfold pyRoundInt
  rw [if_neg (by linarith), if_pos hfr, hfl]

theorem pyRoundInt_intCast (n : ℤ) : pyRoundInt (n : ℝ) = n := by
  apply pyRoundInt_eq_floor_of n _ le_rfl
  norm_num

theorem floor_le_pyRoundInt (x : ℝ) : ⌊x⌋ ≤ pyRoundInt x := by
  unfold pyRoundInt
  split_ifs <;> omega

theorem pyRoundInt_le_floor_add_one (x : ℝ) : pyRoundInt x ≤ ⌊x⌋ + 1 := by
  unfold pyRoundInt
  split_ifs <;> omega

theorem pyRoundInt_mono {x y : ℝ} (h : x ≤ y) : pyRoundInt x ≤ pyRoundInt y := by
  rcases lt_or_eq_of_le (Int.floor_mono h) with hf | hf
  · calc pyRoundInt x ≤ ⌊x⌋ + 1 := pyRoundInt_le_floor_add_one x
      _ ≤ ⌊y⌋ := by omega
      _ ≤ pyRoundInt y := floor_le_pyRoundInt y
  · have hfr : Int.fract x ≤ Int.fract y := by
      rw [← Int.self_sub_floor, ← Int.self_sub_floor, hf]
      have : (⌊y⌋ : ℝ) = ⌊y⌋ := rfl
      linarith [h]
    unfold pyRoundInt
    split_ifs with h1 h2 h3 h4 h5 h6 h7 h8 h9 <;>
      first
        | omega
        | (exfalso; linarith)

theorem round4_mono {x y : ℝ} (h : x ≤ y) : round4 x ≤ round4 y := by
  unfold round4
  have hm : pyRoundInt (x * 10000) ≤ pyRoundInt (y * 10000) :=
    pyRoundInt_mono (by linarith)
  have hc : ((pyRoundInt (x * 10000) : ℤ) : ℝ) ≤ ((pyRoundInt (y * 10000) : ℤ) : ℝ) := by
    exact_mod_cast hm
  linarith

/-- A value that is an exact multiple of `1/10000` is unchanged by `round4`. -/
theorem round4_eq_self (x : ℝ) (n : ℤ) (h : x * 10000 = (n : ℝ)) : round4 x = x := by
  have hx : x = (n : ℝ) / 10000 := by
    field_simp
    linarith
  unfold round4
  rw [h, pyRoundInt_intCast, ← hx]

/-- Evaluation of `round4` when `x * 10000` falls in `[n, n + 1/2)`. -/
theorem round4_eval_lo (x : ℝ) (n : ℤ) (h1 : (n : ℝ) ≤ x * 10000)
    (h2 : x * 10000 < n + 1/2) : round4 x = (n : ℝ) / 10000 := by
  unfold round4
  rw [pyRoundInt_eq_floor_of n _ h1 h2]

/-- Evaluation of `round4` when `x * 10000` falls in `(n + 1/2, n + 1)`. -/
theorem round4_eval_hi (x : ℝ) (n : ℤ) (h1 : (n : ℝ) + 1/2 < x * 10000)
    (h2 : x * 10000 < n + 1) : round4 x = ((n : ℝ) + 1) / 10000 := by
  unfold round4
  rw [pyRoundInt_eq_ceil_of n _ h1 h2]
  push_cast
  ring_nf

theorem round4_idem (x : ℝ) : round4 (round4 x) = round4 x := by
  apply round4_eq_self _ (pyRoundInt (x * 10000))
  unfold round4
  field_simp

/-! ## Shared numeric helpers (`statistics.mean`, `statistics.stdev`) -/

/-- `statistics.mean` (the code only applies it to non-empty lists). -/
noncomputable def mean (l : List ℝ) : ℝ := l.sum / l.length

/-- `statistics.stdev`: the sample standard deviation
`sqrt(Σ (x - mean)² / (n - 1))` (the code only applies it to lists of
length at least 2). -/
noncomputable def stdev (l : List ℝ) : ℝ :=
  Real.sqrt (((l.map (fun x => (x - mean l) ^ 2)).sum) / ((l.length : ℝ) - 1))

/-! ## config.py -/

noncomputable def W1 : ℝ := 0.30
noncomputable def W2 : ℝ := 0.20
noncomputable def W3 : ℝ := 0.30
noncomputable def W4 : ℝ := 0.20
noncomputable def THRESHOLD_K : ℝ := 2.5
noncomputable def FLOOR_STD : ℝ := 0.02
noncomputable def MAX_INTERVAL : ℝ := 3.0
def MIN_SAMPLES : ℕ := 5

/-! ## Data model -/

/-- The dict returned by `keystroke.capture_keystrokes()`. -/
structure SessionSample where
  flight_times : List ℝ
  dwell_times : List ℝ
  bigrams : List (String × List ℝ)
  rhythm_vector : List ℝ
  chars : String

/-- The baseline profile dict built by `trust_engine.create_baseline()`
(the persisted JSON schema). -/
structure BaselineProfile where
  flight_avg : ℝ
  flight_std : ℝ
  dwell_avg : ℝ
  dwell_std : ℝ
  bigram_avg : List (String × ℝ)
  rhythm_vector : List ℝ

/-- The dict returned by `risk_engine.compute_multifactor_risk()`. -/
structure RiskAssessment where
  flight_dev : ℝ
  dwell_dev : ℝ
  bigram_dev : ℝ
  vector_dist : ℝ
  cosine_sim : ℝ
  risk_score : ℝ
  threshold : ℝ
  status : String

/-! ## risk_engine.py : vector math utilities -/

/-- `_align_vectors`: both vectors truncated to the shorter length. -/
def alignLen (v1 v2 : List ℝ) : ℕ := min v1.length v2.length

/-- `euclidean_distance(v1, v2)`. -/
noncomputable def euclidean_distance (v1 v2 : List ℝ) : ℝ :=
  if v1 = [] ∨ v2 = [] then 0
  else
    let a := v1.take (alignLen v1 v2)
    let b := v2.take (alignLen v1 v2)
    if a = [] then 0
    else Real.sqrt (((a.zip b).map (fun p => (p.1 - p.2) ^ 2)).sum)

/-- `cosine_similarity(v1, v2)`. -/
noncomputable def cosine_similarity (v1 v2 : List ℝ) : ℝ :=
  if v1 = [] ∨ v2 = [] then 1
  else
    let a := v1.take (alignLen v1 v2)
    let b := v2.take (alignLen v1 v2)
    if a = [] then 1
    else
      let dot := ((a.zip b).map (fun p => p.1 * p.2)).sum
      let norm_a := Real.sqrt ((a.map (fun x => x ^ 2)).sum)
      let norm_b := Real.sqrt ((b.map (fun x => x ^ 2)).sum)
      if norm_a = 0 ∨ norm_b = 0 then (if norm_a = norm_b then 1 else 0)
      else dot / (norm_a * norm_b)

/-! ## risk_engine.py : individual signal deviation functions -/

/-- `flight_deviation(baseline_avg, current_times)`. -/
noncomputable def flight_deviation (baseline_avg : ℝ) (current_times : List ℝ) : ℝ :=
  if current_times = [] then 0
  else |mean current_times - baseline_avg|

/-- `dwell_deviation(baseline_avg, current_times)`. -/
noncomputable def dwell_deviation (baseline_avg : ℝ) (current_times : List ℝ) : ℝ :=
  if current_times = [] ∨ baseline_avg = 0 then 0
  else |mean current_times - baseline_avg|

/-- Dict lookup in the current session's bigram table. -/
def lookupBigram (l : List (String × List ℝ)) (k : String) : Option (List ℝ) :=
  match l.find? (fun p => p.1 == k) with
  | none => none
  | some p => some p.2

/-- `bigram_deviation(baseline_bigrams, current_bigrams)`: mean absolute
deviation over bigrams present in both tables whose current list is
non-empty (`mean` over `ℝ` is independent of the set-iteration order the
Python code uses). -/
noncomputable def bigram_deviation (baseline_bigrams : List (String × ℝ))
    (current_bigrams : List (String × List ℝ)) : ℝ :=
  let deviations := baseline_bigrams.filterMap (fun p =>
    match lookupBigram current_bigrams p.1 with
    | none => none
    | some c_times =>
        if c_times = [] then none else some |p.2 - mean c_times|)
  if deviations = [] then 0 else mean deviations

/-- `rhythm_vector_distance(baseline_vector, current_vector)`. -/
noncomputable def rhythm_vector_distance (baseline_vector current_vector : List ℝ) : ℝ :=
  if baseline_vector = [] ∨ current_vector = [] then 0
  else
    let a := baseline_vector.take (alignLen baseline_vector current_vector)
    let b := current_vector.take (alignLen baseline_vector current_vector)
    if a = [] then 0
    else euclidean_distance a b / Real.sqrt (a.length : ℝ)

/-! ## risk_engine.py : dynamic threshold and multi-factor scorer -/

/-- `dynamic_threshold(flight_std)` (always called with the default
multiplier `k = THRESHOLD_K`).  Note that the source rounds the product to
4 decimal places before returning it. -/
noncomputable def dynamic_threshold (flight_std : ℝ) : ℝ :=
  round4 (max flight_std FLOOR_STD * THRESHOLD_K)

/-- The unrounded weighted total `w1*f + w2*d + w3*bg + w4*v` that
`compute_multifactor_risk` compares against the threshold. -/
noncomputable def riskRaw (baseline : BaselineProfile) (current_data : SessionSample) : ℝ :=
  W1 * flight_deviation baseline.flight_avg current_data.flight_times +
  W2 * dwell_deviation baseline.dwell_avg current_data.dwell_times +
  W3 * bigram_deviation baseline.bigram_avg current_data.bigrams +
  W4 * rhythm_vector_distance baseline.rhythm_vector current_data.rhythm_vector

/-- `compute_multifactor_risk(baseline, current_data)`.  The baseline is a
fully-populated profile record (every profile the program builds or loads
has all six keys, so the `.get` defaults never fire). -/
noncomputable def compute_multifactor_risk (baseline : BaselineProfile)
    (current_data : SessionSample) : RiskAssessment :=
  let f_dev := flight_deviation baseline.flight_avg current_data.flight_times
  let d_dev := dwell_deviation baseline.dwell_avg current_data.dwell_times
  let bg_dev := bigram_deviation baseline.bigram_avg current_data.bigrams
  let v_dist := rhythm_vector_distance baseline.rhythm_vector current_data.rhythm_vector
  let cos_sim := cosine_similarity baseline.rhythm_vector current_data.rhythm_vector
  let risk := W1 * f_dev + W2 * d_dev + W3 * bg_dev + W4 * v_dist
  let threshold := dynamic_threshold baseline.flight_std
  let status := if risk < threshold then "TRUSTED" else "SUSPICIOUS"
  { flight_dev := round4 f_dev
    dwell_dev := round4 d_dev
    bigram_dev := round4 bg_dev
    vector_dist := round4 v_dist
    cosine_sim := round4 cos_sim
    risk_score := round4 risk
    threshold := round4 threshold
    status := status }

/-! ## Characterisation of `compute_multifactor_risk`'s fields -/

theorem cmr_status (b : BaselineProfile) (c : SessionSample) :
    (compute_multifactor_risk b c).status =
      if riskRaw b c < dynamic_threshold b.flight_std then "TRUSTED" else "SUSPICIOUS" := rfl

theorem cmr_risk_score (b : BaselineProfile) (c : SessionSample) :
    (compute_multifactor_risk b c).risk_score = round4 (riskRaw b c) := rfl

theorem cmr_threshold (b : BaselineProfile) (c : SessionSample) :
    (compute_multifactor_risk b c).threshold = round4 (dynamic_threshold b.flight_std) := rfl

theorem cmr_vector_dist (b : BaselineProfile) (c : SessionSample) :
    (compute_multifactor_risk b c).vector_dist =
      round4 (rhythm_vector_distance b.rhythm_vector c.rhythm_vector) := rfl

theorem cmr_cosine_sim (b : BaselineProfile) (c : SessionSample) :
    (compute_multifactor_risk b c).cosine_sim =
      round4 (cosine_similarity b.rhythm_vector c.rhythm_vector) := rfl

/-- Shared evaluation: the threshold the code computes for a baseline
standard deviation of `0.02001`.  The unrounded product is
`0.02001 * 2.5 = 0.050025`, which `dynamic_threshold` rounds down to
`0.05`. -/
theorem dynamic_threshold_at_002001 : dynamic_threshold (2001/100000) = 1/20 := by
  unfold dynamic_threshold
  rw [show max (2001/100000 : ℝ) FLOOR_STD * THRESHOLD_K = 2001/40000 by
    rw [max_eq_left (by norm_num [FLOOR_STD])]; norm_num [THRESHOLD_K]]
  rw [round4_eval_lo _ 500 (by norm_num) (by norm_num)]
  norm_num

/-- Shared evaluation: the unrounded risk for a flight-only session whose
single flight time is `0.1667` against a baseline average of `0`. -/
theorem riskRaw_cex_eval :
    riskRaw ⟨0, 2001/100000, 0, 0, [], []⟩ ⟨[1667/10000], [], [], [], ""⟩ = 5001/100000 := by
  unfold riskRaw
  norm_num [flight_deviation, dwell_deviation, bigram_deviation, rhythm_vector_distance,
    mean, W1, W2, W3, W4, abs_of_nonneg]

/-- **C1** (as amended).  `compute_multifactor_risk` returns status
`TRUSTED` iff the *unrounded* risk score is strictly below the value of
`dynamic_threshold` — but that threshold has already been rounded to 4
decimal places inside `dynamic_threshold` before the comparison, so the
rounding is not confined to the returned fields.  The returned
`risk_score` is the rounded risk, and the returned `threshold` coincides
with the (already rounded) compared threshold. -/
theorem C1_status_strict_vs_rounded_threshold (b : BaselineProfile) (c : SessionSample) :
    ((compute_multifactor_risk b c).status = "TRUSTED" ↔
      riskRaw b c < dynamic_threshold b.flight_std)
    ∧ (compute_multifactor_risk b c).risk_score = round4 (riskRaw b c)
    ∧ (compute_multifactor_risk b c).threshold = dynamic_threshold b.flight_std := by
  refine ⟨?_, cmr_risk_score b c, ?_⟩
  · rw [cmr_status]
    split_ifs with h
    · simp [h]
    · simp [h]
  · rw [cmr_threshold]
    unfold dynamic_threshold
    exact round4_idem _

/-- **C1** counterexample.  Baseline `flight_std = 0.02001` (unrounded
threshold `0.050025`, rounded threshold `0.05`) and a session whose
unrounded risk is `0.05001`: the unrounded comparison would say TRUSTED
(`0.05001 < 0.050025`), but the code compares against the rounded
threshold and returns SUSPICIOUS — refuting the claim that the internal
comparison is performed on unrounded values with rounding applied only to
the returned fields. -/
theorem C1_counterexample :
    (compute_multifactor_risk ⟨0, 2001/100000, 0, 0, [], []⟩
        ⟨[1667/10000], [], [], [], ""⟩).status = "SUSPICIOUS"
    ∧ riskRaw ⟨0, 2001/100000, 0, 0, [], []⟩ ⟨[1667/10000], [], [], [], ""⟩
        < max ((2001:ℝ)/100000) FLOOR_STD * THRESHOLD_K := by
  constructor
  · rw [cmr_status, riskRaw_cex_eval]
    have hb : (⟨0, 2001/100000, 0, 0, [], []⟩ : BaselineProfile).flight_std
        = 2001/100000 := rfl
    rw [hb, dynamic_threshold_at_002001, if_neg (by norm_num)]
  · rw [riskRaw_cex_eval, max_eq_left (by norm_num [FLOOR_STD])]
    norm_num [THRESHOLD_K]

/-- **C2** (as amended).  `dynamic_threshold(flight_std)` equals
`max(flight_std, 0.02) * 2.5` *rounded to 4 decimal places* (the source
rounds before returning); it is still monotonically non-decreasing and
`dynamic_threshold(0) = 0.05`. -/
theorem C2_dynamic_threshold_rounded :
    (∀ s : ℝ, dynamic_threshold s = round4 (max s FLOOR_STD * THRESHOLD_K))
    ∧ (∀ s t : ℝ, s ≤ t → dynamic_threshold s ≤ dynamic_threshold t)
    ∧ dynamic_threshold 0 = 1/20 := by
  refine ⟨fun s => rfl, fun s t h => round4_mono ?_, ?_⟩
  · exact mul_le_mul_of_nonneg_right (max_le_max h le_rfl) (by norm_num [THRESHOLD_K])
  · unfold dynamic_threshold
    rw [show max (0:ℝ) FLOOR_STD * THRESHOLD_K = 1/20 by
      rw [max_eq_right (by norm_num [FLOOR_STD])]; norm_num [FLOOR_STD, THRESHOLD_K]]
    exact round4_eq_self _ 500 (by norm_num)

/-- **C2** counterexample.  At the non-negative input
`flight_std = 0.02001`, the code returns `0.05`, whereas
`max(0.02001, 0.02) * 2.5 = 0.050025`: the claimed exact equality fails
because of the rounding inside `dynamic_threshold`. -/
theorem C2_counterexample :
    dynamic_threshold (2001/100000) ≠ max ((2001:ℝ)/100000) FLOOR_STD * THRESHOLD_K := by
  rw [dynamic_threshold_at_002001, max_eq_left (by norm_num [FLOOR_STD])]
  norm_num [THRESHOLD_K]

/-! ## Self-comparison lemmas for the vector metrics -/

theorem zip_self_sub_sq_sum (l : List ℝ) :
    ((l.zip l).map (fun p => (p.1 - p.2) ^ 2)).sum = 0 := by
  induction l with
  | nil => simp
  | cons x xs ih => simp [ih]

theorem zip_self_mul_sum (l : List ℝ) :
    ((l.zip l).map (fun p => p.1 * p.2)).sum = (l.map (fun x => x ^ 2)).sum := by
  induction l with
  | nil => simp
  | cons x xs ih => simp [ih, pow_two]

theorem euclidean_distance_self (v : List ℝ) : euclidean_distance v v = 0 := by
  by_cases h : v = []
  · simp [euclidean_distance, h]
  · simp only [euclidean_distance, alignLen, min_self, List.take_length]
    rw [if_neg (by simp [h]), if_neg h, zip_self_sub_sq_sum, Real.sqrt_zero]

theorem rhythm_vector_distance_self (v : List ℝ) : rhythm_vector_distance v v = 0 := by
  by_cases h : v = []
  · simp [rhythm_vector_distance, h]
  · simp only [rhythm_vector_distance, alignLen, min_self, List.take_length]
    rw [if_neg (by simp [h]), if_neg h, euclidean_distance_self, zero_div]

theorem cosine_similarity_self (v : List ℝ) : cosine_similarity v v = 1 := by
  by_cases h : v = []
  · simp [cosine_similarity, h]
  · simp only [cosine_similarity, alignLen, min_self, List.take_length]
    rw [if_neg (by simp [h]), if_neg h]
    by_cases hn : Real.sqrt ((v.map (fun x => x ^ 2)).sum) = 0
    · rw [if_pos (Or.inl hn)]
      simp
    · rw [if_neg (by tauto), zip_self_mul_sum]
      have hSnn : 0 ≤ (v.map (fun x => x ^ 2)).sum := by
        apply List.sum_nonneg
        intro y hy
        obtain ⟨x, _, rfl⟩ := List.mem_map.1 hy
        exact sq_nonneg x
      rw [Real.mul_self_sqrt hSnn]
      refine div_self fun h0 => hn ?_
      rw [h0, Real.sqrt_zero]

/-- **C6**.  Comparing a baseline against a session whose rhythm vector is
exactly the baseline's own stored rhythm vector yields `vector_dist = 0`
and `cosine_sim = 1`, so the risk score is the rounded weighted sum of the
flight, dwell and bigram deviation terms alone. -/
theorem C6_self_rhythm_vector (b : BaselineProfile) (c : SessionSample)
    (h : c.rhythm_vector = b.rhythm_vector) :
    (compute_multifactor_risk b c).vector_dist = 0
    ∧ (compute_multifactor_risk b c).cosine_sim = 1
    ∧ (compute_multifactor_risk b c).risk_score =
        round4 (W1 * flight_deviation b.flight_avg c.flight_times +
                W2 * dwell_deviation b.dwell_avg c.dwell_times +
                W3 * bigram_deviation b.bigram_avg c.bigrams) := by
  refine ⟨?_, ?_, ?_⟩
  · rw [cmr_vector_dist, h, rhythm_vector_distance_self]
    exact round4_eq_self _ 0 (by norm_num)
  · rw [cmr_cosine_sim, h, cosine_similarity_self]
    exact round4_eq_self _ 10000 (by norm_num)
  · rw [cmr_risk_score]
    unfold riskRaw
    rw [h, rhythm_vector_distance_self, mul_zero, add_zero]

/-- **C6** witness: a concrete baseline compared against a session built
from its own rhythm vector `[1]`. -/
theorem C6_witness :
    (compute_multifactor_risk ⟨0, 1/20, 0, 0, [], [1]⟩ ⟨[1/10], [], [], [1], ""⟩).vector_dist = 0
    ∧ (compute_multifactor_risk ⟨0, 1/20, 0, 0, [], [1]⟩ ⟨[1/10], [], [], [1], ""⟩).cosine_sim = 1
    ∧ (compute_multifactor_risk ⟨0, 1/20, 0, 0, [], [1]⟩ ⟨[1/10], [], [], [1], ""⟩).risk_score =
        round4 (W1 * flight_deviation (0:ℝ) [1/10] +
                W2 * dwell_deviation (0:ℝ) [] +
                W3 * bigram_deviation [] []) :=
  C6_self_rhythm_vector ⟨0, 1/20, 0, 0, [], [1]⟩ ⟨[1/10], [], [], [1], ""⟩ rfl

/-! ## trust_engine.py -/

/-- `TrustEngine.create_baseline(data)`.  Raising `ValueError` ("no flight
time data captured") is modelled by `Except.error`. -/
noncomputable def create_baseline (data : SessionSample) : Except String BaselineProfile :=
  if data.flight_times = [] then
    .error "No flight time data captured. Please type more characters for the baseline."
  else
    let flight_avg := mean data.flight_times
    let flight_std :=
      if 1 < data.flight_times.length then stdev data.flight_times else 0.05
    let dwell_avg := if data.dwell_times = [] then 0 else mean data.dwell_times
    let dwell_std :=
      if data.dwell_times = [] then 0.02
      else if 1 < data.dwell_times.length then stdev data.dwell_times else 0.02
    let bigram_avg := data.bigrams.filterMap (fun p =>
      if p.2 = [] then none else some (p.1, round4 (mean p.2)))
    .ok { flight_avg := round4 flight_avg
          flight_std := round4 flight_std
          dwell_avg := round4 dwell_avg
          dwell_std := round4 dwell_std
          bigram_avg := bigram_avg
          rhythm_vector := data.rhythm_vector.map round4 }

/-- `TrustEngine.save_baseline(profile)`: the baseline JSON file is
modelled as an explicit `Option BaselineProfile` store; `json.dump` of the
profile record is modelled as exact. -/
def save_baseline (profile : BaselineProfile) (_store : Option BaselineProfile) :
    Option BaselineProfile := some profile

/-- `TrustEngine.load_baseline()`: `FileNotFoundError` is modelled by
`Except.error` when the store holds no profile. -/
def load_baseline : Option BaselineProfile → Except String BaselineProfile
  | none => .error "Baseline file not found. Please register a baseline first."
  | some p => .ok p

/-- `TrustEngine.compute_risk(current_data, baseline)`. -/
noncomputable def compute_risk (current_data : SessionSample) (baseline : BaselineProfile) :
    Except String RiskAssessment :=
  if current_data.flight_times = [] then
    .error "No keystroke data captured for risk computation."
  else .ok (compute_multifactor_risk baseline current_data)

/-- **C4**.  `create_baseline` fails iff the sample's `flight_times` is
empty; on every sample with non-empty `flight_times` it returns a profile
without raising. -/
theorem C4_create_baseline_error_iff (s : SessionSample) :
    ((∃ e, create_baseline s = .error e) ↔ s.flight_times = [])
    ∧ (s.flight_times = [] ∨ ∃ p, create_baseline s = .ok p) := by
  unfold create_baseline
  by_cases h : s.flight_times = []
  · simp [h]
  · simp [h]

/-- **C5**.  For a sample with non-empty `flight_times`, saving the
profile `create_baseline` produced and loading it back yields a profile
identical field-for-field to the one saved. -/
theorem C5_save_load_round_trip (s : SessionSample) (store : Option BaselineProfile)
    (p : BaselineProfile) (_hne : s.flight_times ≠ [])
    (_hok : create_baseline s = .ok p) :
    ∃ q, load_baseline (save_baseline p store) = .ok q
      ∧ q.flight_avg = p.flight_avg ∧ q.flight_std = p.flight_std
      ∧ q.dwell_avg = p.dwell_avg ∧ q.dwell_std = p.dwell_std
      ∧ q.bigram_avg = p.bigram_avg ∧ q.rhythm_vector = p.rhythm_vector :=
  ⟨p, rfl, rfl, rfl, rfl, rfl, rfl, rfl⟩

/-- **C5** witness: the concrete one-keystroke-interval sample
`flight_times = [0.1]`, whose created profile is
`(0.1, 0.05, 0, 0.02, {}, [0.1])`. -/
theorem C5_witness :
    ∃ q, load_baseline (save_baseline ⟨1/10, 1/20, 0, 1/50, [], [1/10]⟩ none) = .ok q
      ∧ q.flight_avg = (⟨1/10, 1/20, 0, 1/50, [], [1/10]⟩ : BaselineProfile).flight_avg
      ∧ q.flight_std = (⟨1/10, 1/20, 0, 1/50, [], [1/10]⟩ : BaselineProfile).flight_std
      ∧ q.dwell_avg = (⟨1/10, 1/20, 0, 1/50, [], [1/10]⟩ : BaselineProfile).dwell_avg
      ∧ q.dwell_std = (⟨1/10, 1/20, 0, 1/50, [], [1/10]⟩ : BaselineProfile).dwell_std
      ∧ q.bigram_avg = (⟨1/10, 1/20, 0, 1/50, [], [1/10]⟩ : BaselineProfile).bigram_avg
      ∧ q.rhythm_vector = (⟨1/10, 1/20, 0, 1/50, [], [1/10]⟩ : BaselineProfile).rhythm_vector := by
  apply C5_save_load_round_trip ⟨[1/10], [], [], [1/10], ""⟩ none _ (by simp)
  have h1 : round4 ((1:ℝ)/10) = 1/10 := round4_eq_self _ 1000 (by norm_num)
  have h2 : round4 ((1:ℝ)/20) = 1/20 := round4_eq_self _ 500 (by norm_num)
  have h3 : round4 (0:ℝ) = 0 := round4_eq_self _ 0 (by norm_num)
  have h4 : round4 ((1:ℝ)/50) = 1/50 := round4_eq_self _ 200 (by norm_num)
  unfold create_baseline
  norm_num [mean, h1, h2, h3, h4]

/-- **C10**.  `MIN_SAMPLES = 5` is never enforced: a sample with exactly
one flight time is accepted by `create_baseline` (which falls back to
`flight_std = 0.05`) and by `compute_risk`, against any baseline. -/
theorem C10_min_samples_not_enforced (s : SessionSample) (b : BaselineProfile)
    (h : s.flight_times.length = 1) :
    1 < MIN_SAMPLES
    ∧ (∃ p, create_baseline s = .ok p ∧ p.flight_std = 1/20)
    ∧ ∃ r, compute_risk s b = .ok r := by
  have hne : s.flight_times ≠ [] := by
    intro h0
    rw [h0] at h
    simp at h
  refine ⟨by norm_num [MIN_SAMPLES], ?_, ?_⟩
  · unfold create_baseline
    rw [if_neg hne]
    refine ⟨_, rfl, ?_⟩
    show round4 (if 1 < s.flight_times.length then stdev s.flight_times else 0.05) = 1/20
    rw [h, if_neg (by norm_num)]
    have : (0.05 : ℝ) = 1/20 := by norm_num
    rw [this]
    exact round4_eq_self _ 500 (by norm_num)
  · unfold compute_risk
    rw [if_neg hne]
    exact ⟨_, rfl⟩

/-- **C10** witness: the singleton sample `flight_times = [0.1]` against a
trivial baseline. -/
theorem C10_witness :
    1 < MIN_SAMPLES
    ∧ (∃ p, create_baseline ⟨[1/10], [], [], [], ""⟩ = .ok p ∧ p.flight_std = 1/20)
    ∧ ∃ r, compute_risk ⟨[1/10], [], [], [], ""⟩ ⟨0, 0, 0, 0, [], []⟩ = .ok r :=
  C10_min_samples_not_enforced ⟨[1/10], [], [], [], ""⟩ ⟨0, 0, 0, 0, [], []⟩ (by simp)

/-! ## keystroke.py : the capture engine

An observed input event: a press or release with the key's printable
character (`none` for special keys such as Shift) and its timestamp. -/

inductive KeyEvent where
  | press (char : Option Char) (time : ℝ)
  | release (char : Option Char) (time : ℝ)

/-- The mutable state of `KeystrokeCapture` (timing accumulators and the
internal bookkeeping fields).  `press_times` models the
`char + str(timestamp) → timestamp` dict as an insertion-ordered list of
`(character, timestamp)` pairs: the dict key is the character followed by
the exact timestamp, so `startswith(char)` selects exactly the entries of
that character, and two entries collide only at identical character and
timestamp (dict overwrite, modelled in `pressInsert`). -/
structure CaptureState where
  flight_times : List ℝ
  dwell_times : List ℝ
  bigrams : List (String × List ℝ)
  rhythm_vector : List ℝ
  press_times : List (Char × ℝ)
  last_press_time : Option ℝ
  prev_char : Option Char
  typed_chars : List Char
  capturing : Bool
  recent_chars : List Char

/-- The state right after `capture_keystrokes` resets everything. -/
def initState : CaptureState :=
  { flight_times := []
    dwell_times := []
    bigrams := []
    rhythm_vector := []
    press_times := []
    last_press_time := none
    prev_char := none
    typed_chars := []
    capturing := true
    recent_chars := [] }

/-- The module-level `TARGET_BIGRAMS` list. -/
def TARGET_BIGRAMS : List String :=
  ["ze", "er", "ro", "co", "on", "nt", "ti", "in",
   "se", "ec", "ur", "ri", "it", "tr", "ru", "us",
   "st", "em", "au", "th", "he", "en", "ca", "at",
   "io", "an"]

/-- `self._recent_chars.append(..)` followed by `pop(0)` when the list
grew beyond two entries. -/
def recentTrim (l : List Char) : List Char := if 2 < l.length then l.tail else l

/-- `self.bigrams.setdefault(key, []).append(v)`. -/
def bigramAppend : List (String × List ℝ) → String → ℝ → List (String × List ℝ)
  | [], key, v => [(key, [v])]
  | (k, ts) :: rest, key, v =>
      if k = key then (k, ts ++ [v]) :: rest else (k, ts) :: bigramAppend rest key v

section
open Classical

/-- `self._press_times[char_lower + str(current_time)] = current_time`:
a dict write, an overwrite when the same character was pressed at the
identical timestamp, an append otherwise. -/
noncomputable def pressInsert (l : List (Char × ℝ)) (cl : Char) (t : ℝ) : List (Char × ℝ) :=
  if (cl, t) ∈ l then l else l ++ [(cl, t)]

/-- The flight-time / rhythm-vector / bigram update of `_on_key_press`:
when a prior press exists, an interval of at most `MAX_INTERVAL` is
appended (rounded to 4 decimals); a longer interval is discarded. -/
noncomputable def pressTiming (s : CaptureState) (cl : Char) (t : ℝ) : CaptureState :=
  match s.last_press_time with
  | none => s
  | some lt =>
      let flight := t - lt
      if flight ≤ MAX_INTERVAL then
        { s with
          flight_times := s.flight_times ++ [round4 flight]
          rhythm_vector := s.rhythm_vector ++ [round4 flight]
          bigrams :=
            match s.prev_char with
            | none => s.bigrams
            | some p =>
                if String.mk [p, cl] ∈ TARGET_BIGRAMS then
                  bigramAppend s.bigrams (String.mk [p, cl]) (round4 flight)
                else s.bigrams }
      else s

/-- `KeystrokeCapture._on_key_press`. -/
noncomputable def onKeyPress (s : CaptureState) (ch : Option Char) (t : ℝ) : CaptureState :=
  if s.capturing = false then s
  else
    match ch with
    | none => s
    | some c =>
        let cl := c.toLower
        let recent := recentTrim (s.recent_chars ++ [cl])
        if recent = [':', 'q'] then
          { s with
            typed_chars := s.typed_chars ++ [cl]
            recent_chars := recent
            capturing := false }
        else
          let s1 := pressTiming s cl t
          { s1 with
            last_press_time := some t
            prev_char := some cl
            typed_chars := s.typed_chars ++ [cl]
            recent_chars := recent
            press_times := pressInsert s.press_times cl t }

/-- `candidates.sort(key=value); candidates[0]`: the first entry carrying
the minimal press timestamp (Python's sort is stable). -/
noncomputable def earliestPress (l : List (Char × ℝ)) : Option (Char × ℝ) :=
  l.foldl (fun acc p =>
    match acc with
    | none => some p
    | some q => if p.2 < q.2 then some p else some q) none

/-- `del self._press_times[key_id]`: the selected entry removed, every
other entry kept in order. -/
noncomputable def eraseFirst (l : List (Char × ℝ)) (p : Char × ℝ) : List (Char × ℝ) :=
  match l with
  | [] => []
  | q :: rest => if q = p then rest else q :: eraseFirst rest p

/-- `KeystrokeCapture._on_key_release`. -/
noncomputable def onKeyRelease (s : CaptureState) (ch : Option Char) (t : ℝ) : CaptureState :=
  if s.capturing = false then s
  else
    match ch with
    | none => s
    | some c =>
        let cl := c.toLower
        let candidates := s.press_times.filter (fun p => p.1 == cl)
        match earliestPress candidates with
        | none => s
        | some q =>
            let s1 := { s with press_times := eraseFirst s.press_times q }
            let dwell := t - q.2
            if 0 < dwell ∧ dwell ≤ MAX_INTERVAL then
              { s1 with dwell_times := s.dwell_times ++ [round4 dwell] }
            else s1

end

/-- One delivered key event. -/
noncomputable def processEvent (s : CaptureState) (ev : KeyEvent) : CaptureState :=
  match ev with
  | .press c t => onKeyPress s c t
  | .release c t => onKeyRelease s c t

/-- A whole capture session: the event stream folded over the reset
state. -/
noncomputable def processEvents (evs : List KeyEvent) : CaptureState :=
  evs.foldl processEvent initState

/-- The dict `capture_keystrokes` returns (its `rhythm_vector` is a fresh
copy of `flight_times`). -/
def captureResult (s : CaptureState) : SessionSample :=
  { flight_times := s.flight_times
    dwell_times := s.dwell_times
    bigrams := s.bigrams
    rhythm_vector := s.flight_times
    chars := String.mk s.typed_chars }

/-! ## C3 : intervals above MAX_INTERVAL never enter the sequences -/

theorem round4_MAX : round4 MAX_INTERVAL = MAX_INTERVAL :=
  round4_eq_self _ 30000 (by norm_num [MAX_INTERVAL])

/-- Every recorded flight time and rhythm-vector entry is at most
`MAX_INTERVAL`. -/
def FlightBounded (s : CaptureState) : Prop :=
  (∀ x ∈ s.flight_times, x ≤ MAX_INTERVAL) ∧ (∀ x ∈ s.rhythm_vector, x ≤ MAX_INTERVAL)

theorem pressTiming_bounded (s : CaptureState) (cl : Char) (t : ℝ)
    (h : FlightBounded s) : FlightBounded (pressTiming s cl t) := by
  cases hlp : s.last_press_time with
  | none => simpa only [pressTiming, hlp] using h
  | some lt =>
      by_cases hf : t - lt ≤ MAX_INTERVAL
      · have hr : round4 (t - lt) ≤ MAX_INTERVAL := by
          calc round4 (t - lt) ≤ round4 MAX_INTERVAL := round4_mono hf
            _ = MAX_INTERVAL := round4_MAX
        constructor
        · intro x hx
          simp only [pressTiming, hlp, if_pos hf, List.mem_append,
            List.mem_singleton] at hx
          rcases hx with hx | hx
          · exact h.1 x hx
          · exact hx ▸ hr
        · intro x hx
          simp only [pressTiming, hlp, if_pos hf, List.mem_append,
            List.mem_singleton] at hx
          rcases hx with hx | hx
          · exact h.2 x hx
          · exact hx ▸ hr
      · simpa only [pressTiming, hlp, if_neg hf] using h

theorem onKeyPress_bounded (s : CaptureState) (ch : Option Char) (t : ℝ)
    (h : FlightBounded s) : FlightBounded (onKeyPress s ch t) := by
  unfold onKeyPress
  split
  · exact h
  · cases ch with
    | none => exact h
    | some c =>
        dsimp only
        split
        · exact h
        · exact pressTiming_bounded s c.toLower t h

theorem onKeyRelease_timing_untouched (s : CaptureState) (ch : Option Char) (t : ℝ) :
    (onKeyRelease s ch t).flight_times = s.flight_times
    ∧ (onKeyRelease s ch t).rhythm_vector = s.rhythm_vector := by
  unfold onKeyRelease
  split
  · exact ⟨rfl, rfl⟩
  · cases ch with
    | none => exact ⟨rfl, rfl⟩
    | some c =>
        dsimp only
        split
        · exact ⟨rfl, rfl⟩
        · split
          · exact ⟨rfl, rfl⟩
          · exact ⟨rfl, rfl⟩

theorem processEvent_bounded (s : CaptureState) (ev : KeyEvent)
    (h : FlightBounded s) : FlightBounded (processEvent s ev) := by
  cases ev with
  | press c t => exact onKeyPress_bounded s c t h
  | release c t =>
      obtain ⟨h1, h2⟩ := onKeyRelease_timing_untouched s c t
      exact ⟨h1 ▸ h.1, h2 ▸ h.2⟩

theorem foldl_processEvent_bounded (evs : List KeyEvent) :
    ∀ s : CaptureState, FlightBounded s → FlightBounded (evs.foldl processEvent s) := by
  induction evs with
  | nil => exact fun s h => h
  | cons e rest ih =>
      intro s h
      exact ih (processEvent s e) (processEvent_bounded s e h)

/-- The flight-time discard: with a prior press and an interval above
`MAX_INTERVAL`, a press appends to none of the timing sequences. -/
theorem onKeyPress_discard (s : CaptureState) (c : Char) (t lt : ℝ)
    (hl : s.last_press_time = some lt) (hgt : MAX_INTERVAL < t - lt) :
    (onKeyPress s (some c) t).flight_times = s.flight_times
    ∧ (onKeyPress s (some c) t).rhythm_vector = s.rhythm_vector
    ∧ (onKeyPress s (some c) t).bigrams = s.bigrams := by
  have hpt : pressTiming s c.toLower t = s := by
    simp only [pressTiming, hl]
    rw [if_neg (by linarith)]
  unfold onKeyPress
  split
  · exact ⟨rfl, rfl, rfl⟩
  · dsimp only
    split
    · exact ⟨rfl, rfl, rfl⟩
    · rw [hpt]
      exact ⟨rfl, rfl, rfl⟩

/-- **C3**.  For every event stream, every element of the resulting
`flight_times` and `rhythm_vector` is at most `MAX_INTERVAL = 3.0`; and an
inter-press interval above `MAX_INTERVAL` is discarded, appended to no
sequence. -/
theorem C3_no_interval_above_max :
    (∀ evs : List KeyEvent,
      (∀ x ∈ (processEvents evs).flight_times, x ≤ MAX_INTERVAL)
      ∧ (∀ x ∈ (processEvents evs).rhythm_vector, x ≤ MAX_INTERVAL))
    ∧ ∀ (s : CaptureState) (c : Char) (t lt : ℝ),
        s.last_press_time = some lt → MAX_INTERVAL < t - lt →
        (onKeyPress s (some c) t).flight_times = s.flight_times
        ∧ (onKeyPress s (some c) t).rhythm_vector = s.rhythm_vector
        ∧ (onKeyPress s (some c) t).bigrams = s.bigrams := by
  constructor
  · intro evs
    exact foldl_processEvent_bounded evs initState
      ⟨fun x hx => by simp [initState] at hx, fun x hx => by simp [initState] at hx⟩
  · exact onKeyPress_discard

/-! ## C9 : the escape sequence stops capture immediately -/

/-- After capture has stopped, a delivered event changes nothing. -/
theorem processEvent_stopped (s : CaptureState) (ev : KeyEvent)
    (hcap : s.capturing = false) : processEvent s ev = s := by
  cases ev with
  | press c t =>
      unfold processEvent onKeyPress
      dsimp only
      rw [if_pos hcap]
  | release c t =>
      unfold processEvent onKeyRelease
      dsimp only
      rw [if_pos hcap]

/-- After capture has stopped, a whole stream of further events changes
nothing. -/
theorem foldl_processEvent_stopped (evs : List KeyEvent) :
    ∀ s : CaptureState, s.capturing = false → evs.foldl processEvent s = s := by
  induction evs with
  | nil => exact fun s _ => rfl
  | cons e rest ih =>
      intro s hcap
      rw [List.foldl_cons, processEvent_stopped s e hcap, ih s hcap]

/-- **C9** (as amended).  When the trimmed recent-character window becomes
`[':', 'q']`, the press stops capture at once: the state only records the
typed character and clears `capturing`, every timing sequence and the
press registry are left exactly as built so far, and every further event
leaves the state — hence the returned `SessionSample` — unchanged.  (The
final `'q'` press contributes no timing data; the earlier `':'` press is
an ordinary press and may contribute — see the counterexample.) -/
theorem C9_escape_stops_capture :
    (∀ (s : CaptureState) (c : Char) (t : ℝ),
        recentTrim (s.recent_chars ++ [c.toLower]) = [':', 'q'] →
        s.capturing = true →
        onKeyPress s (some c) t =
          { s with
            typed_chars := s.typed_chars ++ [c.toLower]
            recent_chars := [':', 'q']
            capturing := false })
    ∧ (∀ (s : CaptureState) (ev : KeyEvent), s.capturing = false →
        processEvent s ev = s)
    ∧ ∀ (s : CaptureState) (evs : List KeyEvent), s.capturing = false →
        captureResult (evs.foldl processEvent s) = captureResult s := by
  refine ⟨?_, processEvent_stopped, ?_⟩
  · intro s c t hrec hcap
    unfold onKeyPress
    rw [if_neg (by simp [hcap])]
    dsimp only
    rw [if_pos hrec, hrec]
  · intro s evs hcap
    rw [foldl_processEvent_stopped evs s hcap]

/-- **C9** counterexample.  Trace: press `'a'` at `0`, press `':'` at `1`,
release `':'` at `1.2`, press `'q'` at `2` (the escape fires on the `'q'`
press).  The only release in the trace is the triggering `':'` key, yet
`dwell_times = [0.2]` records its dwell, and `flight_times = [1]` records
the interval ending at the `':'` press — the triggering keys are *not*
excluded from all timing data, refuting the claim as stated. -/
theorem C9_counterexample :
    (processEvents [KeyEvent.press (some 'a') 0, KeyEvent.press (some ':') 1,
        KeyEvent.release (some ':') (6/5), KeyEvent.press (some 'q') 2]).dwell_times
      = [1/5]
    ∧ (processEvents [KeyEvent.press (some 'a') 0, KeyEvent.press (some ':') 1,
        KeyEvent.release (some ':') (6/5), KeyEvent.press (some 'q') 2]).flight_times
      = [1] := by
  have hr1 : round4 (1 : ℝ) = 1 := round4_eq_self _ 10000 (by norm_num)
  have hr5 : round4 ((1:ℝ)/5) = 1/5 := round4_eq_self _ 2000 (by norm_num)
  norm_num +decide [processEvents, processEvent, onKeyPress, onKeyRelease, initState,
    pressTiming, pressInsert, recentTrim, earliestPress, eraseFirst, bigramAppend,
    TARGET_BIGRAMS, MAX_INTERVAL, hr1, hr5]

/-! ## main.py : the session-monitor state machine

`ZeroTrustAuthSystem.session_monitor` is driven by its environment: the
initial verification capture, then — per loop iteration — either a user
cancellation of the countdown (Ctrl+C, ending the session normally) or a
re-verification capture.  A finite prefix of that environment is modelled
as a list of steps. -/

inductive MonitorStep where
  | cancelled
  | recheck (sample : SessionSample)

/-- How a monitor run (restricted to the supplied step prefix) ends:
never reaching the monitoring loop, ended normally by the user, locked by
`_lock_session`, or still actively monitoring when the prefix runs out. -/
inductive MonitorOutcome where
  | neverStarted
  | endedByUser
  | locked
  | stillActive
deriving DecidableEq

/-- Whether the run ever entered the `Monitoring` state, and how it
ended. -/
structure MonitorRun where
  enteredMonitoring : Bool
  outcome : MonitorOutcome
deriving DecidableEq

section
open Classical

/-- The continuous re-verification loop (`while self._session_active`):
a cancelled countdown ends the session normally; an empty re-check
capture or a non-`TRUSTED` assessment calls `_lock_session` and breaks;
a `TRUSTED` assessment loops. -/
noncomputable def monitorLoop (baseline : BaselineProfile) :
    List MonitorStep → MonitorOutcome
  | [] => .stillActive
  | .cancelled :: _ => .endedByUser
  | .recheck sample :: rest =>
      if sample.flight_times = [] then .locked
      else if (compute_multifactor_risk baseline sample).status = "TRUSTED" then
        monitorLoop baseline rest
      else .locked

/-- `ZeroTrustAuthSystem.session_monitor`: load the baseline (abort when
missing), run the initial verification (abort when empty or not
`TRUSTED`, without entering the monitoring loop), then loop. -/
noncomputable def session_monitor (store : Option BaselineProfile)
    (initial : SessionSample) (steps : List MonitorStep) : MonitorRun :=
  match load_baseline store with
  | .error _ => ⟨false, .neverStarted⟩
  | .ok baseline =>
      if initial.flight_times = [] then ⟨false, .neverStarted⟩
      else if (compute_multifactor_risk baseline initial).status ≠ "TRUSTED" then
        ⟨false, .neverStarted⟩
      else ⟨true, monitorLoop baseline steps⟩

end

/-- **C7**.  When the initial one-shot verification is not `TRUSTED`, the
`Monitoring` state is never entered and no lock transition occurs: the
run terminates as never-started, which is distinct from locked-after-
starting. -/
theorem C7_initial_failure_never_starts (b : BaselineProfile) (initial : SessionSample)
    (steps : List MonitorStep)
    (h : (compute_multifactor_risk b initial).status ≠ "TRUSTED") :
    session_monitor (some b) initial steps = ⟨false, MonitorOutcome.neverStarted⟩
    ∧ (session_monitor (some b) initial steps).outcome ≠ MonitorOutcome.locked := by
  have hrun : session_monitor (some b) initial steps
      = ⟨false, MonitorOutcome.neverStarted⟩ := by
    unfold session_monitor load_baseline
    dsimp only
    by_cases hinit : initial.flight_times = []
    · rw [if_pos hinit]
    · rw [if_neg hinit, if_pos h]
  refine ⟨hrun, ?_⟩
  rw [hrun]
  decide

/-- Shared evaluation: the threshold for a baseline standard deviation of
`0.01` (floored at `0.02`): `0.02 * 2.5 = 0.05`. -/
theorem dynamic_threshold_at_001 : dynamic_threshold (1/100) = 1/20 := by
  unfold dynamic_threshold
  rw [show max (1/100 : ℝ) FLOOR_STD * THRESHOLD_K = 1/20 by
    rw [max_eq_right (by norm_num [FLOOR_STD])]; norm_num [FLOOR_STD, THRESHOLD_K]]
  exact round4_eq_self _ 500 (by norm_num)

/-- Shared evaluation: a one-flight-time session at `1` second against a
tight baseline (`flight_avg = 0`, `flight_std = 0.01`) is assessed
`SUSPICIOUS` (risk `0.3` against threshold `0.05`). -/
theorem status_suspicious_eval :
    (compute_multifactor_risk ⟨0, 1/100, 0, 0, [], []⟩
      ⟨[1], [], [], [], ""⟩).status = "SUSPICIOUS" := by
  rw [cmr_status]
  rw [show riskRaw ⟨0, 1/100, 0, 0, [], []⟩ ⟨[1], [], [], [], ""⟩ = 3/10 by
    unfold riskRaw
    norm_num [flight_deviation, dwell_deviation, bigram_deviation,
      rhythm_vector_distance, mean, W1, W2, W3, W4, abs_of_nonneg]]
  rw [show (⟨0, 1/100, 0, 0, [], []⟩ : BaselineProfile).flight_std = 1/100 from rfl,
    dynamic_threshold_at_001, if_neg (by norm_num)]

/-- **C7** witness: a concrete baseline and initial session whose
assessment is `SUSPICIOUS`; the run never starts and is not locked. -/
theorem C7_witness :
    session_monitor (some ⟨0, 1/100, 0, 0, [], []⟩) ⟨[1], [], [], [], ""⟩
        [MonitorStep.recheck ⟨[1], [], [], [], ""⟩]
      = ⟨false, MonitorOutcome.neverStarted⟩
    ∧ (session_monitor (some ⟨0, 1/100, 0, 0, [], []⟩) ⟨[1], [], [], [], ""⟩
        [MonitorStep.recheck ⟨[1], [], [], [], ""⟩]).outcome
      ≠ MonitorOutcome.locked :=
  C7_initial_failure_never_starts ⟨0, 1/100, 0, 0, [], []⟩ ⟨[1], [], [], [], ""⟩
    [MonitorStep.recheck ⟨[1], [], [], [], ""⟩]
    (by rw [status_suspicious_eval]; decide)

/-- **C8**.  Inside the monitoring loop: a re-check with an empty capture
locks the session immediately; a re-check assessed `SUSPICIOUS` locks the
session immediately; a non-empty re-check assessed `TRUSTED` loops back.
In the two locking cases the remaining steps `rest` are discarded
entirely — `Locked` is absorbing for the run. -/
theorem C8_recheck_transitions (b : BaselineProfile) (sample : SessionSample)
    (rest : List MonitorStep) :
    (sample.flight_times = [] →
      monitorLoop b (MonitorStep.recheck sample :: rest) = MonitorOutcome.locked)
    ∧ ((compute_multifactor_risk b sample).status = "SUSPICIOUS" →
      monitorLoop b (MonitorStep.recheck sample :: rest) = MonitorOutcome.locked)
    ∧ (sample.flight_times ≠ [] →
      (compute_multifactor_risk b sample).status = "TRUSTED" →
      monitorLoop b (MonitorStep.recheck sample :: rest) = monitorLoop b rest) := by
  refine ⟨?_, ?_, ?_⟩
  · intro h
    simp only [monitorLoop]
    rw [if_pos h]
  · intro h
    by_cases he : sample.flight_times = []
    · simp only [monitorLoop]
      rw [if_pos he]
    · simp only [monitorLoop]
      rw [if_neg he, if_neg (by rw [h]; decide)]
  · intro hne hst
    simp only [monitorLoop]
    rw [if_neg hne, if_pos hst]

/-- Shared evaluation: the threshold for a baseline standard deviation of
`0.05`: `0.05 * 2.5 = 0.125`. -/
theorem dynamic_threshold_at_005 : dynamic_threshold (1/20) = 1/8 := by
  unfold dynamic_threshold
  rw [show max (1/20 : ℝ) FLOOR_STD * THRESHOLD_K = 1/8 by
    rw [max_eq_left (by norm_num [FLOOR_STD])]; norm_num [THRESHOLD_K]]
  exact round4_eq_self _ 1250 (by norm_num)

/-- Shared evaluation: a session reproducing the baseline's flight
average exactly is assessed `TRUSTED` (risk `0` against threshold
`0.125`). -/
theorem status_trusted_eval :
    (compute_multifactor_risk ⟨1/10, 1/20, 0, 1/50, [], []⟩
      ⟨[1/10], [], [], [], ""⟩).status = "TRUSTED" := by
  rw [cmr_status]
  rw [show riskRaw ⟨1/10, 1/20, 0, 1/50, [], []⟩ ⟨[1/10], [], [], [], ""⟩ = 0 by
    unfold riskRaw
    norm_num [flight_deviation, dwell_deviation, bigram_deviation,
      rhythm_vector_distance, mean, W1, W2, W3, W4]]
  rw [show (⟨1/10, 1/20, 0, 1/50, [], []⟩ : BaselineProfile).flight_std = 1/20 from rfl,
    dynamic_threshold_at_005, if_pos (by norm_num)]

/-- The spec's monitoring scenario: one successful re-check followed by
one empty-capture re-check transitions the session to `Locked`. -/
theorem monitor_scenario_trusted_then_empty_locks :
    monitorLoop ⟨1/10, 1/20, 0, 1/50, [], []⟩
      [MonitorStep.recheck ⟨[1/10], [], [], [], ""⟩,
       MonitorStep.recheck ⟨[], [], [], [], ""⟩] = MonitorOutcome.locked := by
  simp only [monitorLoop]
  rw [if_neg (by simp), if_pos status_trusted_eval]
  simp

end ZeroTrust
